import Mathlib

/-!
Verification development for the cassy repository (a schema-aware data-access
layer over a CQL-speaking store).  The Python modules `cassy/cql.py`,
`cassy/casdriv.py` and `cassy/model.py` are shallowly embedded below:

* pure query-composition and whitelist logic becomes pure Lean functions that
  additionally report the list of CQL statements handed to the session;
* the cqlengine model CRUD layer becomes explicit state passing over a
  `Model` record holding the `__keyspace__` / `__connection__` bindings and
  the backing rows;
* the model generator becomes explicit state passing over an association-list
  filesystem.

External collaborators (the datastax driver, `importlib`) are modelled where
the repository merely delegates to them; every such definition carries a doc
comment saying so.
-/

namespace Cassy

/-- Association-list lookup keyed by strings; models a Python `dict` lookup
(`d[k]`) returning `none` when the key is absent. -/
def alookup {α : Type} : List (String × α) → String → Option α
  | [], _ => none
  | (k, v) :: rest, key => if k = key then some v else alookup rest key

/-- Discriminated description of every failure condition the core can signal.
The constructors follow the spec's error taxonomy; `pyExcKind` below records
which concrete Python exception type each one is raised as in the code. -/
inductive CassyError where
  | unknownKeyspace (name : String)
  | unknownTable (name : String)
  | unknownColumn (name : String)
  | unknownPrimaryKey (name : String)
  | unknownValue (name : String)
  | invalidKeyShape
  | notFound
  | multipleFound
  | artifactExists (path : String)
  | artifactNotFound (path : String)
  | symbolNotFound (name : String)
  deriving DecidableEq, Repr

/-- Python exception classes used by the code (or by the driver calls it makes)
for the failure conditions of `CassyError`. -/
inductive PyExcKind where
  | keyError
  | valueError
  | fileExistsError
  | doesNotExist
  | multipleObjectsReturned
  | fileNotFoundError
  | attributeError
  deriving DecidableEq, Repr

/-- Which Python exception type each failure condition is raised as:
the five whitelist failures in `cql.py` are all `raise KeyError(...)`,
`read_entry` raises `ValueError`, `_handle_path` raises `FileExistsError`,
`model.get` raises cqlengine's `DoesNotExist` / `MultipleObjectsReturned`,
and `retrieve_data_model` lets `FileNotFoundError` / `AttributeError`
escape from `exec_module` / `getattr`. -/
def pyExcKind : CassyError → PyExcKind
  | .unknownKeyspace _ => .keyError
  | .unknownTable _ => .keyError
  | .unknownColumn _ => .keyError
  | .unknownPrimaryKey _ => .keyError
  | .unknownValue _ => .keyError
  | .invalidKeyShape => .valueError
  | .notFound => .doesNotExist
  | .multipleFound => .multipleObjectsReturned
  | .artifactExists _ => .fileExistsError
  | .artifactNotFound _ => .fileNotFoundError
  | .symbolNotFound _ => .attributeError

/-- Message text attached at each `raise` site of the repository itself
(`none` for the errors raised inside the external driver / loader). -/
def pyExcMessage : CassyError → Option String
  | .unknownKeyspace k => some ("Unknown keyspace: '" ++ k ++ "'")
  | .unknownTable t => some ("Unknown table: '" ++ t ++ "'")
  | .unknownColumn c => some ("Unknown column: '" ++ c ++ "'")
  | .unknownPrimaryKey k => some ("Unknown primary key: '" ++ k ++ "'")
  | .unknownValue v => some ("Unknown primary key value: '" ++ v ++ "'")
  | .invalidKeyShape =>
      some "'primary_keys' argument must be of type str or tuplenot \x7btype(primary_keys)\x7d"
  | .artifactExists p =>
      some ("Existing file at " ++ p ++ "\nSet 'overwrite=True' or change filepath")
  | _ => none

namespace cql

/-- Live metadata of one table as exposed by `cluster.metadata`: the ordered
column names (`tables[t].columns.keys()`) and the ordered primary-key column
names (`key.name for key in tables[t].primary_key`). -/
structure TableMeta where
  columns : List String
  primary_key : List String
  deriving DecidableEq, Repr

/-- Live cluster metadata: `cluster.metadata.keyspaces`, an ordered mapping
from keyspace name to that keyspace's tables. -/
structure ClusterMeta where
  keyspaces : List (String × List (String × TableMeta))
  deriving DecidableEq, Repr

/-- The session collaborator, reduced to what the whitelisted query layer
needs: `session.execute(q)` returns rows, each row an association of column
name to value. -/
structure Session where
  rows : String → List (List (String × String))

/-- The `('cluster', 'session')` named tuple returned by
`casdriv.connect_session`. -/
structure CnS where
  cluster : ClusterMeta
  session : Session

/-- Embeds `casdriv.list_cluster_keyspaces`:
`list(cluster.metadata.keyspaces.keys())`. -/
def list_cluster_keyspaces (cluster : ClusterMeta) : List String :=
  cluster.keyspaces.map Prod.fst

/-- Tables mapping of one keyspace, `cluster.metadata.keyspaces[ks].tables`
(the default `[]` is only reachable on a missing keyspace, where Python
would raise; every use below is guarded by a whitelist check). -/
def keyspaceTables (cluster : ClusterMeta) (keyspace : String) :
    List (String × TableMeta) :=
  (alookup cluster.keyspaces keyspace).getD []

/-- Embeds `casdriv.list_keyspace_tables`:
`list(cluster.metadata.keyspaces[keyspace].tables.keys())`. -/
def list_keyspace_tables (cluster : ClusterMeta) (keyspace : String) :
    List String :=
  (keyspaceTables cluster keyspace).map Prod.fst

/-- Metadata record of one table (guarded by whitelist checks as above). -/
def tableMeta (cluster : ClusterMeta) (keyspace table : String) : TableMeta :=
  (alookup (keyspaceTables cluster keyspace) table).getD ⟨[], []⟩

/-- Embeds `casdriv.list_table_primary_keys`. -/
def list_table_primary_keys (cluster : ClusterMeta) (keyspace table : String) :
    List String :=
  (tableMeta cluster keyspace table).primary_key

/-- Embeds `casdriv.list_table_columns`. -/
def list_table_columns (cluster : ClusterMeta) (keyspace table : String) :
    List String :=
  (tableMeta cluster keyspace table).columns

/-- Embeds `cql.create_keyspace`, returning the statement handed to
`session.execute`.  With the default `replication="simple"` the code
substitutes the fixed SimpleStrategy expression with replication factor 1;
any other value is interpolated verbatim. -/
def create_keyspace (keyspace : String) (replication : String) : String :=
  let replication :=
    if replication = "simple" then
      "\x7b'class': 'SimpleStrategy', 'replication_factor': 1\x7d"
    else replication
  "CREATE KEYSPACE IF NOT EXISTS " ++ keyspace ++ " WITH replication = " ++
    replication ++ ";"

/-- Modelled from the spec: `casdriv.create_simple_keyspace` delegates to
`cassandra.cqlengine.management.create_keyspace_simple`, which is not part of
this repository.  Per the spec it "issues a conditional create-if-not-exists
statement with a simple single-datacenter replication strategy" built from the
supplied replication factor and durable-writes flag. -/
def create_keyspace_simple_statement (name : String) (replication_factor : Nat)
    (durable_writes : Bool) : String :=
  "CREATE KEYSPACE IF NOT EXISTS " ++ name ++
    " WITH replication = \x7b'class': 'SimpleStrategy', 'replication_factor': " ++
    toString replication_factor ++ "\x7d AND durable_writes = " ++
    (if durable_writes then "true" else "false") ++ ";"

/-- Embeds `casdriv.create_simple_keyspace`, returning the statement the
delegated `create_keyspace_simple` driver call issues. -/
def create_simple_keyspace (name : String) (replication_factor : Nat)
    (durable_writes : Bool) : String :=
  create_keyspace_simple_statement name replication_factor durable_writes

/-- Embeds `cql.list_column_values`.  The first component is the result (or
the whitelist error), the second the list of statements handed to
`session.execute`, in order. -/
def list_column_values (cluster : ClusterMeta) (session : Session)
    (keyspace table column : String) :
    Except CassyError (List (Option String)) × List String :=
  if keyspace ∉ list_cluster_keyspaces cluster then
    (.error (.unknownKeyspace keyspace), [])
  else if table ∉ list_keyspace_tables cluster keyspace then
    (.error (.unknownTable table), [])
  else if column ∉ list_table_columns cluster keyspace table then
    (.error (.unknownColumn column), [])
  else
    let query := "SELECT " ++ column ++ " FROM " ++ keyspace ++ "." ++ table
    (.ok ((session.rows query).map (fun r => alookup r column)), [query])

/-- Embeds `cql.get_all_entries` (the ad-hoc `SELECT *` path). -/
def get_all_entries (cluster : ClusterMeta) (session : Session)
    (keyspace table : String) :
    Except CassyError (List (List (String × String))) × List String :=
  if keyspace ∉ list_cluster_keyspaces cluster then
    (.error (.unknownKeyspace keyspace), [])
  else if table ∉ list_keyspace_tables cluster keyspace then
    (.error (.unknownTable table), [])
  else
    let query := "SELECT * FROM " ++ keyspace ++ "." ++ table
    (.ok (session.rows query), [query])

/-- Embeds `cql.drop_row`.  The value whitelist check re-uses
`list_column_values`, whose probing SELECT is itself executed through the
session, so a failing value check leaves that SELECT in the statement log. -/
def drop_row (cns : CnS) (keyspace table primary_key value : String) :
    Except CassyError Unit × List String :=
  if keyspace ∉ list_cluster_keyspaces cns.cluster then
    (.error (.unknownKeyspace keyspace), [])
  else if table ∉ list_keyspace_tables cns.cluster keyspace then
    (.error (.unknownTable table), [])
  else if primary_key ∉ list_table_primary_keys cns.cluster keyspace table then
    (.error (.unknownPrimaryKey primary_key), [])
  else
    match list_column_values cns.cluster cns.session keyspace table primary_key with
    | (.error e, log) => (.error e, log)
    | (.ok vals, log) =>
      if some value ∉ vals then
        (.error (.unknownValue value), log)
      else
        (.ok (), log ++ ["DELETE FROM " ++ keyspace ++ "." ++ table ++
          " WHERE " ++ primary_key ++ " = '" ++ value ++ "'"])

/-- Embeds `cql.drop_all_rows` (TRUNCATE). -/
def drop_all_rows (cluster : ClusterMeta) (session : Session)
    (keyspace table : String) :
    Except CassyError Unit × List String :=
  if keyspace ∉ list_cluster_keyspaces cluster then
    (.error (.unknownKeyspace keyspace), [])
  else if table ∉ list_keyspace_tables cluster keyspace then
    (.error (.unknownTable table), [])
  else
    (.ok (), ["TRUNCATE " ++ keyspace ++ "." ++ table])

/-- Sample table metadata used by concrete witnesses. -/
def sampleTable : TableMeta := ⟨["p", "c"], ["p"]⟩

/-- Sample cluster metadata used by concrete witnesses. -/
def sampleCluster : ClusterMeta := ⟨[("k", [("t", sampleTable)])]⟩

/-- Session returning no rows for any statement. -/
def emptySession : Session := ⟨fun _ => []⟩

/-- Sample `(cluster, session)` pair used by concrete witnesses. -/
def sampleCnS : CnS := ⟨sampleCluster, emptySession⟩

end cql

namespace casdriv

/-- Value stored in one cell of a model row.  `s` is an ordinary string value;
`t` a tuple value (only reachable when a caller passes a tuple of values
together with a single string key, which Python would store unchanged in the
filter dictionary). -/
inductive CellVal where
  | s (x : String)
  | t (xs : List String)
  deriving DecidableEq, Repr

/-- A cqlengine data-class model together with its mutable class-level state:
the `__keyspace__` / `__connection__` bindings, whether `sync_table` has been
run, and the backing table rows (each row an association of column name to
value). -/
structure Model where
  keyspace : Option String
  connection : Option String
  synced : Bool
  rows : List (List (String × CellVal))
  deriving DecidableEq, Repr

/-- Shape of the `primary_keys` argument of `read_entry` / `delete_entry`:
a Python `str`, a non-string container (`isinstance(..., abc.Container)`), or
any other value (e.g. an `int`), which is neither. -/
inductive PKeys where
  | str (s : String)
  | container (ks : List String)
  | other
  deriving DecidableEq, Repr

/-- Shape of the `values` argument: a Python `str` or a tuple of strings. -/
inductive PVals where
  | str (s : String)
  | tup (vs : List String)
  deriving DecidableEq, Repr

/-- The `values` argument used as a single dictionary value
(`\x7bprimary_keys: values\x7d` branch). -/
def pvalCell : PVals → CellVal
  | .str s => .s s
  | .tup vs => .t vs

/-- The `values` argument used as an iterable (`zip(primary_keys, values)`
branch): a tuple iterates over its elements, a string over its characters. -/
def pvalIter : PVals → List CellVal
  | .str s => s.data.map (fun c => CellVal.s (String.mk [c]))
  | .tup vs => vs.map CellVal.s

/-- Python truthiness of the optional `keyspace` / `con` arguments: `None`
and the empty string are falsy, any other string truthy. -/
def truthy : Option String → Bool
  | none => false
  | some s => !s.isEmpty

/-- The shared prologue of the CRUD functions:
`if keyspace: model.__keyspace__ = keyspace` and
`if con: model.__connection__ = con`. -/
def bindModel (model : Model) (keyspace con : Option String) : Model :=
  let model :=
    if truthy keyspace then { model with keyspace := keyspace } else model
  if truthy con then { model with connection := con } else model

/-- One insertion step of building a Python `dict` from a key/value pair:
an existing key is overwritten, a new key appended. -/
def dictInsert (d : List (String × CellVal)) (kv : String × CellVal) :
    List (String × CellVal) :=
  if d.any (fun p => p.1 = kv.1) then
    d.map (fun p => if p.1 = kv.1 then (p.1, kv.2) else p)
  else d ++ [kv]

/-- Python `dict(pairs)`: later occurrences of a key override earlier ones. -/
def dictOf (l : List (String × CellVal)) : List (String × CellVal) :=
  l.foldl dictInsert []

/-- Whether a row satisfies every `column = value` constraint of a filter
dictionary (the cqlengine `model.get(**filter_dict)` match condition). -/
def rowMatches (r : List (String × CellVal)) (d : List (String × CellVal)) :
    Bool :=
  d.all (fun kv => alookup r kv.1 = some kv.2)

/-- Modelled from the spec: cqlengine's `model.get(**filter_dict)` (external
driver code).  Per the spec it "looks up exactly one matching row; fails with
`NotFound` if none matches"; cqlengine raises `MultipleObjectsReturned` when
more than one row matches. -/
def model_get (model : Model) (d : List (String × CellVal)) :
    Except CassyError (List (String × CellVal)) :=
  match model.rows.filter (fun r => rowMatches r d) with
  | [] => .error .notFound
  | [r] => .ok r
  | _ :: _ :: _ => .error .multipleFound

/-- Modelled from the spec: `casdriv.synchronize_model` delegates to
cqlengine's `sync_table` (external), which "ensures a physical table exists
matching the descriptor's column layout; creates it if absent; safe to call
repeatedly".  Captured as an idempotent flag on the model state. -/
def synchronize_model (model : Model) : Model :=
  { model with synced := true }

/-- Embeds `casdriv.create_entry`.  `model.create(**data)` is the driver's
INSERT of one row built from `data`; the created entry is returned. -/
def create_entry (model : Model) (data : List (String × CellVal))
    (prior_syncing : Bool) (keyspace con : Option String) :
    Model × List (String × CellVal) :=
  let model := bindModel model keyspace con
  let model := if prior_syncing then synchronize_model model else model
  ({ model with rows := model.rows ++ [data] }, data)

/-- Embeds `casdriv.read_entry`: bind keyspace/connection, parse the key/value
pairing into a filter dictionary (a `str` key gives a single-entry dict, a
container key is zipped with the values, anything else raises `ValueError`),
then `model.get`. -/
def read_entry (model : Model) (primary_keys : PKeys) (values : PVals)
    (keyspace con : Option String) :
    Model × Except CassyError (List (String × CellVal)) :=
  let model := bindModel model keyspace con
  let filter_dict : Except CassyError (List (String × CellVal)) :=
    match primary_keys with
    | .str pk => .ok [(pk, pvalCell values)]
    | .container ks => .ok (dictOf (ks.zip (pvalIter values)))
    | .other => .error .invalidKeyShape
  match filter_dict with
  | .error e => (model, .error e)
  | .ok d => (model, model_get model d)

/-- Removal of the first occurrence of an element (the driver's
`entry.delete()`, which deletes exactly the row the entry denotes). -/
def eraseFirst {α : Type} [DecidableEq α] : List α → α → List α
  | [], _ => []
  | x :: rest, a => if x = a then rest else x :: eraseFirst rest a

/-- Embeds `casdriv.delete_entry`: `read_entry` first, then
`entry.delete()`; a failing read propagates unchanged and deletes nothing. -/
def delete_entry (model : Model) (primary_keys : PKeys) (values : PVals)
    (keyspace con : Option String) : Model × Except CassyError Unit :=
  match read_entry model primary_keys values keyspace con with
  | (m, .error e) => (m, .error e)
  | (m, .ok entry) => ({ m with rows := eraseFirst m.rows entry }, .ok ())

/-- Embeds `casdriv.get_all_entries`: bind keyspace/connection, then
`list(model.objects().all())`. -/
def get_all_entries (model : Model) (keyspace con : Option String) :
    Model × List (List (String × CellVal)) :=
  let model := bindModel model keyspace con
  (model, model.rows)

/-- Sample model used by concrete witnesses: one row keyed by `latin = x`. -/
def sampleModel : Model :=
  ⟨none, none, true, [[("latin", .s "x"), ("german", .s "Wolf")]]⟩

end casdriv

namespace model

/-- Embeds the `MetaModel` dataclass.  The Python dictionaries are ordered
(insertion order), hence association lists. -/
structure MetaModel where
  name : String
  primary_keys : List (String × String)
  clustering_keys : List (String × (String × String))
  columns : List (String × String)
  deriving DecidableEq, Repr

/-- One rendered primary-key field line of `_write_model_lines`. -/
def pkLine (kv : String × String) : String :=
  "    " ++ kv.1 ++ " = columns." ++ kv.2 ++ "(primary_key=True)\n"

/-- One rendered clustering-key field line of `_write_model_lines`. -/
def ckLine (kv : String × (String × String)) : String :=
  "    " ++ kv.1 ++ " = columns." ++ kv.2.1 ++
    "(primary_key=True, clustering_order='" ++ kv.2.2 ++ "')\n"

/-- One rendered plain-column field line of `_write_model_lines`. -/
def colLine (kv : String × String) : String :=
  "    " ++ kv.1 ++ " = columns." ++ kv.2 ++ "()\n"

/-- Embeds `model._write_model_lines`: header comments and imports, the class
declaration, then primary keys, clustering keys (with clustering order), a
separator comment, and the regular columns. -/
def write_model_lines (meta_model : MetaModel) (path : String) : List String :=
  ["# " ++ path ++ "\n",
   "# automatically created using cassy\n",
   "from cassandra.cqlengine import columns\n",
   "from cassandra.cqlengine.models import Model\n\n\n",
   "class " ++ meta_model.name ++ "(Model):\n"]
  ++ meta_model.primary_keys.map pkLine
  ++ meta_model.clustering_keys.map ckLine
  ++ ["\n    # Regular Table Columns:\n"]
  ++ meta_model.columns.map colLine

/-- The filesystem, an association of (resolved) path strings to file
contents. -/
abbrev FS := List (String × String)

/-- Content of the file at a path, if it exists (`Path.is_file` plus read). -/
def fsRead (fs : FS) (p : String) : Option String := alookup fs p

/-- Writing a file: overwrites an existing file at the path, otherwise
creates a new one. -/
def fsWrite (fs : FS) (p c : String) : FS :=
  match fs with
  | [] => [(p, c)]
  | (k, v) :: rest => if k = p then (p, c) :: rest else (k, v) :: fsWrite rest p c

/-- A resolved filesystem location, carried in the parts `_handle_path`
takes it apart into: `output_path.parent`, `output_path.stem` and
`"".join(output_path.suffixes)`.  (Tilde/relative resolution itself is
OS state and is treated as already performed.) -/
structure FPath where
  parent : String
  stem : String
  suffixes : String
  deriving DecidableEq, Repr

/-- Rendering of a resolved location as the path string keying the
filesystem. -/
def fullPath (p : FPath) : String := p.parent ++ "/" ++ p.stem ++ p.suffixes

/-- The backup location `_handle_path` constructs:
`parent / (stem + "_backup_" + uid + suffixes)`. -/
def backupPath (p : FPath) (uid : String) : FPath :=
  { p with stem := p.stem ++ "_backup_" ++ uid }

/-- Embeds `model._handle_path`.  `uid` stands for the `str(uuid4())` random
suffix drawn inside the call.  If a file exists at the output path and
`overwrite` is false, raise `FileExistsError` (no write); if overwriting with
`backup`, first copy the existing file byte-for-byte to the backup path. -/
def handle_path (fs : FS) (output_path : FPath) (overwrite backup : Bool)
    (uid : String) : FS × Except CassyError FPath :=
  match fsRead fs (fullPath output_path) with
  | none => (fs, .ok output_path)
  | some content =>
    if !overwrite then
      (fs, .error (.artifactExists (fullPath output_path)))
    else if backup then
      (fsWrite fs (fullPath (backupPath output_path uid)) content,
       .ok output_path)
    else (fs, .ok output_path)

/-- Embeds `model.create_data_model`: render the lines, run `_handle_path`
(whose `FileExistsError` aborts the call before any write), then write the
concatenated lines to the output path and return it. -/
def create_data_model (fs : FS) (meta_model : MetaModel) (path : FPath)
    (overwrite backup : Bool) (uid : String) : FS × Except CassyError FPath :=
  let lines_to_write := write_model_lines meta_model (fullPath path)
  match handle_path fs path overwrite backup uid with
  | (fs2, .error e) => (fs2, .error e)
  | (fs2, .ok output_path) =>
    (fsWrite fs2 (fullPath output_path) (String.join lines_to_write),
     .ok output_path)

/-- One field declaration of a loaded cqlengine model class: a primary-key
column, a clustering-key column (with its clustering order), or a plain
column, each with its column data-type tag. -/
inductive Decl where
  | pk (name ty : String)
  | ck (name ty order : String)
  | col (name ty : String)
  deriving DecidableEq, Repr

/-- The apostrophe character (delimiting the `clustering_order` argument in
a rendered field line). -/
def apos : Char := Char.ofNat 39

/-- Splits a character list at the first occurrence of `sep`, returning the
parts before and after it, or `none` when `sep` does not occur. -/
def splitFirst (sep : List Char) : List Char → Option (List Char × List Char)
  | [] => none
  | c :: rest =>
    if sep.isPrefixOf (c :: rest) then some ([], (c :: rest).drop sep.length)
    else
      match splitFirst sep rest with
      | some (a, b) => some (c :: a, b)
      | none => none

/-- The argument-list prefix of a rendered clustering-key field line. -/
def ckArgPre : List Char := "primary_key=True, clustering_order='".data

/-- Classification of one field declaration from its parts: the field name,
the `columns.` data-type tag, and the characters following the opening
parenthesis.  An empty argument list marks a plain column, `primary_key=True`
a primary key, and `primary_key=True, clustering_order='...'` a clustering
key with the quoted sort direction. -/
def classifyArgs (namePart tyPart argsClose : List Char) : Option Decl :=
  if argsClose.getLast? = some ')' then
    let args := argsClose.dropLast
    if args = [] then some (.col (String.mk namePart) (String.mk tyPart))
    else if args = "primary_key=True".data then
      some (.pk (String.mk namePart) (String.mk tyPart))
    else if ckArgPre.isPrefixOf args then
      let rest2 := args.drop ckArgPre.length
      if rest2.getLast? = some apos then
        some (.ck (String.mk namePart) (String.mk tyPart)
          (String.mk rest2.dropLast))
      else none
    else none
  else none

/-- Modelled from the spec: how one line of the artifact contributes a field
to the loaded model class.  Executing the artifact is external (`importlib`
plus the cqlengine `Model` metaclass); per the spec the artifact is "a text
source file containing one class-like declaration per table-model, with one
field-like statement per column (primary keys first, annotated as primary;
clustering keys next, annotated with sort direction; then plain columns)".
A line of the form `    name = columns.Ty(args)` declares a field named
`name` of type `Ty`, classified by its argument list via `classifyArgs`. -/
def parse_decl (line : List Char) : Option Decl :=
  if ("    ".data).isPrefixOf line then
    match splitFirst (" = columns.".data) (line.drop 4) with
    | none => none
    | some (namePart, rest) =>
      match splitFirst ['('] rest with
      | none => none
      | some (tyPart, argsClose) => classifyArgs namePart tyPart argsClose
  else none

/-- Modelled from the spec: the class name a `class Name(Model):` line of the
artifact binds in the loaded module (the symbol `retrieve_data_model` looks
up with `getattr`). -/
def parse_class_name (line : List Char) : Option String :=
  if ("class ".data).isPrefixOf line then
    match splitFirst ['('] (line.drop 6) with
    | some (n, _) => some (String.mk n)
    | none => none
  else none

/-- The class name the loaded artifact defines, if any. -/
def find_class_name (ls : List (List Char)) : Option String :=
  ls.findSome? parse_class_name

/-- The model class `retrieve_data_model` returns: the looked-up symbol with
`__table_name__` set to the model name, `__table_name_case_sensitive__` set
to `True`, and the field declarations in artifact order. -/
structure RetrievedModel where
  table_name : String
  table_name_case_sensitive : Bool
  decls : List Decl
  deriving DecidableEq, Repr

/-- Embeds `model.retrieve_data_model`, with the loading step modelled from
the spec (the code executes the artifact via `importlib` and extracts the
symbol with `getattr`; the spec: "loads the artifact at `location` and
extracts the named table-model descriptor symbol `modelName` from it; fails
with `ArtifactNotFound` if the location does not exist, and with
`SymbolNotFound` if `modelName` is absent from the loaded artifact.  Sets the
descriptor's table identifier and marks its identifier comparison as
case-sensitive on load"). -/
def retrieve_data_model (fs : FS) (path : String) (model_name : String) :
    Except CassyError RetrievedModel :=
  match fsRead fs path with
  | none => .error (.artifactNotFound path)
  | some content =>
    let ls := content.data.splitOn '\n'
    match find_class_name ls with
    | none => .error (.symbolNotFound model_name)
    | some cname =>
      if cname = model_name then
        .ok { table_name := model_name
              table_name_case_sensitive := true
              decls := ls.filterMap parse_decl }
      else .error (.symbolNotFound model_name)

/-- Primary-key columns of a retrieved model, in declaration order. -/
def modelPrimaryKeys (m : RetrievedModel) : List (String × String) :=
  m.decls.filterMap fun d =>
    match d with
    | .pk n t => some (n, t)
    | _ => none

/-- Clustering-key columns of a retrieved model, in declaration order, with
data type and clustering order. -/
def modelClusteringKeys (m : RetrievedModel) :
    List (String × (String × String)) :=
  m.decls.filterMap fun d =>
    match d with
    | .ck n t o => some (n, (t, o))
    | _ => none

/-- Plain columns of a retrieved model, in declaration order. -/
def modelColumns (m : RetrievedModel) : List (String × String) :=
  m.decls.filterMap fun d =>
    match d with
    | .col n t => some (n, t)
    | _ => none

/-- The field declarations the renderer emits for a descriptor, in artifact
order: primary keys, then clustering keys, then plain columns. -/
def renderDecls (meta_model : MetaModel) : List Decl :=
  meta_model.primary_keys.map (fun kv => Decl.pk kv.1 kv.2)
  ++ meta_model.clustering_keys.map (fun kv => Decl.ck kv.1 kv.2.1 kv.2.2)
  ++ meta_model.columns.map (fun kv => Decl.col kv.1 kv.2)

/-- Characters legal in a Python identifier (letters, digits, underscore). -/
def isIdentChar (c : Char) : Bool := c.isAlpha || c.isDigit || c = '_'

/-- Valid identifier in the target module system: nonempty, identifier
characters only, not starting with a digit (the `MetaModel` name invariant
from the spec, likewise satisfied by real column names and cqlengine
data-type tags). -/
def isValidIdent (s : String) : Bool :=
  !s.isEmpty && s.data.all isIdentChar && !(s.data.headD '0').isDigit

/-- A descriptor whose table name, column names and data-type tags are valid
identifiers and whose clustering orders are `ASC` or `DESC`. -/
def validMeta (m : MetaModel) : Bool :=
  isValidIdent m.name &&
  m.primary_keys.all (fun kv => isValidIdent kv.1 && isValidIdent kv.2) &&
  m.clustering_keys.all (fun kv =>
    isValidIdent kv.1 && isValidIdent kv.2.1 &&
    (kv.2.2 = "ASC" || kv.2.2 = "DESC")) &&
  m.columns.all (fun kv => isValidIdent kv.1 && isValidIdent kv.2)

/-- Character-level body (without the trailing newline) of a rendered
primary-key field line. -/
def pkBody (kv : String × String) : List Char :=
  "    ".data ++ kv.1.data ++ " = columns.".data ++ kv.2.data ++
    "(primary_key=True)".data

/-- Character-level body of a rendered clustering-key field line. -/
def ckBody (kv : String × (String × String)) : List Char :=
  "    ".data ++ kv.1.data ++ " = columns.".data ++ kv.2.1.data ++
    "(primary_key=True, clustering_order='".data ++ kv.2.2.data ++ "')".data

/-- Character-level body of a rendered plain-column field line. -/
def colBody (kv : String × String) : List Char :=
  "    ".data ++ kv.1.data ++ " = columns.".data ++ kv.2.data ++ "()".data

/-- Concatenation of newline-terminated lines. -/
def joinLines (ls : List (List Char)) : List Char :=
  (ls.map (fun l => l ++ ['\n'])).flatten

/-- Newline-free decomposition of the rendered artifact: the logical lines of
the file written by `create_data_model`, each without its terminating
newline. -/
def logicalLines (meta_model : MetaModel) (path : String) :
    List (List Char) :=
  ["# ".data ++ path.data,
   "# automatically created using cassy".data,
   "from cassandra.cqlengine import columns".data,
   "from cassandra.cqlengine.models import Model".data,
   [], [],
   "class ".data ++ (meta_model.name.data ++ "(Model):".data)]
  ++ meta_model.primary_keys.map pkBody
  ++ meta_model.clustering_keys.map ckBody
  ++ [[], "    # Regular Table Columns:".data]
  ++ meta_model.columns.map colBody

/-- Sample descriptor used by concrete witnesses (the design case from the
repository's tests). -/
def sampleMeta : MetaModel :=
  ⟨"CrawfordCommonFruitingTrees",
   [("Latin", "Text")],
   [("English", ("Text", "ASC")), ("German", ("Text", "ASC"))],
   [("USDA_Hardiness", "Integer")]⟩

/-- Sample resolved location used by concrete witnesses. -/
def samplePath : FPath := ⟨"/tmp", "pytest_tmp_model", ".py"⟩

end model

/-! ## Helper lemmas -/

theorem append_getElem?_left {α : Type} (l1 l2 : List α) (i : Nat)
    (h : i < l1.length) : (l1 ++ l2)[i]? = l1[i]? := by
  simp [List.getElem?_append, h]

theorem msg_ne (p1 p2 a b : String) (i : Nat) (h1 : i < p1.data.length)
    (h2 : i < p2.data.length) (hne : p1.data[i]? ≠ p2.data[i]?) :
    p1 ++ a ++ "'" ≠ p2 ++ b ++ "'" := by
  intro e
  apply hne
  have l1 : (p1 ++ a ++ "'").data[i]? = p1.data[i]? := by
    rw [String.data_append, String.data_append, List.append_assoc]
    exact append_getElem?_left _ _ _ h1
  have l2 : (p2 ++ b ++ "'").data[i]? = p2.data[i]? := by
    rw [String.data_append, String.data_append, List.append_assoc]
    exact append_getElem?_left _ _ _ h2
  rw [← l1, ← l2, e]

theorem truthy_none : casdriv.truthy none = false := rfl

theorem bindModel_of_falsy (m : casdriv.Model) (ks con : Option String)
    (h1 : casdriv.truthy ks = false) (h2 : casdriv.truthy con = false) :
    casdriv.bindModel m ks con = m := by
  simp [casdriv.bindModel, h1, h2]

theorem bindModel_rows (m : casdriv.Model) (ks con : Option String) :
    (casdriv.bindModel m ks con).rows = m.rows := by
  unfold casdriv.bindModel
  split <;> split <;> rfl

theorem read_entry_fst (m : casdriv.Model) (pk : casdriv.PKeys)
    (vals : casdriv.PVals) (ks con : Option String) :
    (casdriv.read_entry m pk vals ks con).1 = casdriv.bindModel m ks con := by
  unfold casdriv.read_entry
  cases pk <;> rfl

theorem model_get_ne_shape (m : casdriv.Model)
    (d : List (String × casdriv.CellVal)) :
    casdriv.model_get m d ≠ .error .invalidKeyShape := by
  unfold casdriv.model_get
  split <;> simp

theorem model_get_ok (m : casdriv.Model) (d r : List (String × casdriv.CellVal))
    (h : casdriv.model_get m d = .ok r) :
    m.rows.filter (fun row => casdriv.rowMatches row d) = [r] := by
  unfold casdriv.model_get at h
  split at h
  · exact absurd h (by simp)
  · cases h
    assumption
  · exact absurd h (by simp)

theorem filter_eraseFirst {α : Type} [DecidableEq α] (l : List α)
    (p : α → Bool) (a : α) (h : l.filter p = [a]) :
    (casdriv.eraseFirst l a).filter p = [] := by
  induction l with
  | nil => simp at h
  | cons x rest ih =>
    by_cases hpx : p x
    · rw [List.filter_cons_of_pos hpx] at h
      obtain ⟨rfl, hrest⟩ : x = a ∧ rest.filter p = [] := by
        have := List.cons.inj h
        exact ⟨this.1, this.2⟩
      simp [casdriv.eraseFirst, hrest]
    · rw [List.filter_cons_of_neg (by simpa using hpx)] at h
      by_cases hxa : x = a
      · subst hxa
        have : p x = true := by
          have : x ∈ rest.filter p := by rw [h]; simp
          exact (List.mem_filter.mp this).2
        exact absurd this (by simpa using hpx)
      · simp only [casdriv.eraseFirst, if_neg hxa]
        rw [List.filter_cons_of_neg (by simpa using hpx)]
        exact ih h

theorem zip_take_length {α β : Type} (ks : List α) (l : List β) :
    ks.zip l = (ks.take l.length).zip l := by
  induction ks generalizing l with
  | nil => simp
  | cons k ks ih =>
    cases l with
    | nil => simp
    | cons v vs => simp [List.zip_cons_cons, ih vs]

/-! ## Claim theorems (C6 through C10; C1 through C5 follow further below) -/

/-- C6: `create_simple_keyspace` issues a conditional CREATE KEYSPACE IF NOT
EXISTS statement with a SimpleStrategy built from the supplied replication
factor and durable-writes flag (via the delegated driver call, modelled from
the spec); `cql.create_keyspace` interpolates a non-default replication
expression verbatim in place of the strategy expression, and with the default
it uses the fixed SimpleStrategy expression. -/
theorem c6_create_keyspace (name ks raw : String) (rf : Nat) (dw : Bool) :
    cql.create_simple_keyspace name rf dw =
      "CREATE KEYSPACE IF NOT EXISTS " ++ name ++
        " WITH replication = \x7b'class': 'SimpleStrategy', 'replication_factor': " ++
        toString rf ++ "\x7d AND durable_writes = " ++
        (if dw then "true" else "false") ++ ";" ∧
    (raw ≠ "simple" →
      cql.create_keyspace ks raw =
        "CREATE KEYSPACE IF NOT EXISTS " ++ ks ++ " WITH replication = " ++
          raw ++ ";") ∧
    cql.create_keyspace ks "simple" =
      "CREATE KEYSPACE IF NOT EXISTS " ++ ks ++ " WITH replication = " ++
        "\x7b'class': 'SimpleStrategy', 'replication_factor': 1\x7d" ++ ";" := by
  refine ⟨rfl, fun h => ?_, by simp [cql.create_keyspace]⟩
  simp [cql.create_keyspace, h]

/-- C6 witness: the theorem applied at concrete arguments, including a raw
NetworkTopologyStrategy expression interpolated verbatim. -/
theorem c6_create_keyspace_witness :
    cql.create_keyspace "west" "\x7b'class': 'NetworkTopologyStrategy', 'dc1': 3\x7d" =
      "CREATE KEYSPACE IF NOT EXISTS west WITH replication = \x7b'class': 'NetworkTopologyStrategy', 'dc1': 3\x7d;" :=
  ((c6_create_keyspace "k" "west"
    "\x7b'class': 'NetworkTopologyStrategy', 'dc1': 3\x7d" 2 true).2.1
    (by decide)).trans (by decide)

/-- C8 counterexample: unknown-keyspace and unknown-table are two distinct
failure conditions really raised by `list_column_values`, yet both are raised
as the same Python exception type (`KeyError`), so a caller cannot branch on
the error's kind to tell them apart. -/
theorem c8_counterexample :
    (cql.list_column_values cql.sampleCluster cql.emptySession "nope" "t" "c").1 =
      .error (.unknownKeyspace "nope") ∧
    (cql.list_column_values cql.sampleCluster cql.emptySession "k" "nope" "c").1 =
      .error (.unknownTable "nope") ∧
    CassyError.unknownKeyspace "nope" ≠ CassyError.unknownTable "nope" ∧
    pyExcKind (.unknownKeyspace "nope") = pyExcKind (.unknownTable "nope") := by
  refine ⟨rfl, rfl, by decide, rfl⟩

/-- C8 amended: every core-raised error is a typed Python exception (never a
bare string), and the error categories map to distinct exception types
(KeyError / ValueError / FileExistsError / DoesNotExist / FileNotFoundError /
AttributeError); however the five whitelist `Unknown*` failures all share
`KeyError` and are discriminated only by their message text, which is
pairwise distinct across the five conditions. -/
theorem c8_error_discrimination (a b : String) :
    pyExcKind (.unknownKeyspace a) = .keyError ∧
    pyExcKind (.unknownTable a) = .keyError ∧
    pyExcKind (.unknownColumn a) = .keyError ∧
    pyExcKind (.unknownPrimaryKey a) = .keyError ∧
    pyExcKind (.unknownValue a) = .keyError ∧
    pyExcKind .invalidKeyShape = .valueError ∧
    pyExcKind (.artifactExists a) = .fileExistsError ∧
    pyExcKind .notFound = .doesNotExist ∧
    pyExcKind (.artifactNotFound a) = .fileNotFoundError ∧
    pyExcKind (.symbolNotFound a) = .attributeError ∧
    pyExcMessage (.unknownKeyspace a) ≠ pyExcMessage (.unknownTable b) ∧
    pyExcMessage (.unknownKeyspace a) ≠ pyExcMessage (.unknownColumn b) ∧
    pyExcMessage (.unknownKeyspace a) ≠ pyExcMessage (.unknownPrimaryKey b) ∧
    pyExcMessage (.unknownKeyspace a) ≠ pyExcMessage (.unknownValue b) ∧
    pyExcMessage (.unknownTable a) ≠ pyExcMessage (.unknownColumn b) ∧
    pyExcMessage (.unknownTable a) ≠ pyExcMessage (.unknownPrimaryKey b) ∧
    pyExcMessage (.unknownTable a) ≠ pyExcMessage (.unknownValue b) ∧
    pyExcMessage (.unknownColumn a) ≠ pyExcMessage (.unknownPrimaryKey b) ∧
    pyExcMessage (.unknownColumn a) ≠ pyExcMessage (.unknownValue b) ∧
    pyExcMessage (.unknownPrimaryKey a) ≠ pyExcMessage (.unknownValue b) := by
  have k : ∀ (p1 p2 x y : String) (i : Nat), i < p1.data.length →
      i < p2.data.length → p1.data[i]? ≠ p2.data[i]? →
      (some (p1 ++ x ++ "'") : Option String) ≠ some (p2 ++ y ++ "'") :=
    fun p1 p2 x y i h1 h2 hne h => msg_ne p1 p2 x y i h1 h2 hne
      (Option.some.inj h)
  exact ⟨rfl, rfl, rfl, rfl, rfl, rfl, rfl, rfl, rfl, rfl,
    k _ _ _ _ 8 (by decide) (by decide) (by decide),
    k _ _ _ _ 8 (by decide) (by decide) (by decide),
    k _ _ _ _ 8 (by decide) (by decide) (by decide),
    k _ _ _ _ 8 (by decide) (by decide) (by decide),
    k _ _ _ _ 8 (by decide) (by decide) (by decide),
    k _ _ _ _ 8 (by decide) (by decide) (by decide),
    k _ _ _ _ 8 (by decide) (by decide) (by decide),
    k _ _ _ _ 8 (by decide) (by decide) (by decide),
    k _ _ _ _ 8 (by decide) (by decide) (by decide),
    k _ _ _ _ 19 (by decide) (by decide) (by decide)⟩

/-- C9: passing a falsy `keyspace` / `con` (None or the empty string) to
`create_entry`, `read_entry`, `delete_entry` or `get_all_entries` leaves the
model's `__keyspace__` / `__connection__` bindings unchanged and makes the
call behave exactly as if the parameter had been omitted. -/
theorem c9_falsy_bindings (m : casdriv.Model)
    (data : List (String × casdriv.CellVal)) (ps : Bool) (pk : casdriv.PKeys)
    (vals : casdriv.PVals) (ks con : Option String)
    (h1 : casdriv.truthy ks = false) (h2 : casdriv.truthy con = false) :
    casdriv.bindModel m ks con = m ∧
    casdriv.create_entry m data ps ks con =
      casdriv.create_entry m data ps none none ∧
    casdriv.read_entry m pk vals ks con =
      casdriv.read_entry m pk vals none none ∧
    casdriv.delete_entry m pk vals ks con =
      casdriv.delete_entry m pk vals none none ∧
    casdriv.get_all_entries m ks con = casdriv.get_all_entries m none none ∧
    (casdriv.create_entry m data ps ks con).1.keyspace = m.keyspace ∧
    (casdriv.create_entry m data ps ks con).1.connection = m.connection ∧
    (casdriv.read_entry m pk vals ks con).1.keyspace = m.keyspace ∧
    (casdriv.read_entry m pk vals ks con).1.connection = m.connection ∧
    (casdriv.get_all_entries m ks con).1.keyspace = m.keyspace ∧
    (casdriv.get_all_entries m ks con).1.connection = m.connection := by
  have hb : casdriv.bindModel m ks con = m := bindModel_of_falsy m ks con h1 h2
  have hn : casdriv.bindModel m none none = m := bindModel_of_falsy m none none rfl rfl
  refine ⟨hb, ?_, ?_, ?_, ?_, ?_, ?_, ?_, ?_, ?_, ?_⟩ <;>
    cases ps <;> cases pk <;>
    simp [casdriv.create_entry, casdriv.read_entry, casdriv.delete_entry,
      casdriv.get_all_entries, casdriv.synchronize_model, hb, hn]

/-- C9 witness: the theorem applied at the sample model with
`keyspace=""` (falsy) and `con=None`; the binding is left unchanged. -/
theorem c9_falsy_bindings_witness :
    (casdriv.get_all_entries casdriv.sampleModel (some "") none).1.keyspace =
      casdriv.sampleModel.keyspace :=
  (c9_falsy_bindings casdriv.sampleModel [] false (.str "latin") (.str "x")
    (some "") none (by decide) (by decide)).2.2.2.2.2.2.2.2.2.1

/-- C7: a `primary_keys` argument that is neither a string nor a container
makes `read_entry` (and hence `delete_entry`) fail with the `ValueError`
key-shape error whatever the stored rows are (no lookup is attempted); a
string key builds a single-entry filter and a container key a composite
(zipped) filter. -/
theorem c7_key_shape (m : casdriv.Model) (vals : casdriv.PVals)
    (ks con : Option String) (pk : String) (kks : List String) :
    casdriv.read_entry m .other vals ks con =
      (casdriv.bindModel m ks con, .error .invalidKeyShape) ∧
    casdriv.delete_entry m .other vals ks con =
      (casdriv.bindModel m ks con, .error .invalidKeyShape) ∧
    (∀ rows2, (casdriv.read_entry { m with rows := rows2 } .other vals
        ks con).2 = .error .invalidKeyShape) ∧
    pyExcKind .invalidKeyShape = .valueError ∧
    (casdriv.read_entry m (.str pk) vals ks con).2 =
      casdriv.model_get (casdriv.bindModel m ks con)
        [(pk, casdriv.pvalCell vals)] ∧
    (casdriv.read_entry m (.container kks) vals ks con).2 =
      casdriv.model_get (casdriv.bindModel m ks con)
        (casdriv.dictOf (kks.zip (casdriv.pvalIter vals))) := by
  refine ⟨rfl, rfl, fun rows2 => rfl, rfl, rfl, rfl⟩

/-- C10: when `primary_keys` is a container of m key names and `values` has
n < m elements, `read_entry` raises no length-mismatch error: the filter is
built by `zip` truncation from the first n key/value pairs only, the extra
key names being silently ignored. -/
theorem c10_zip_truncation (m : casdriv.Model) (kks : List String)
    (vs : List String) (ks con : Option String)
    (h : vs.length < kks.length) :
    casdriv.read_entry m (.container kks) (.tup vs) ks con =
      (casdriv.bindModel m ks con,
       casdriv.model_get (casdriv.bindModel m ks con)
         (casdriv.dictOf ((kks.take vs.length).zip (vs.map casdriv.CellVal.s)))) ∧
    (casdriv.read_entry m (.container kks) (.tup vs) ks con).2 ≠
      .error .invalidKeyShape := by
  have hz : kks.zip (casdriv.pvalIter (.tup vs)) =
      (kks.take vs.length).zip (vs.map casdriv.CellVal.s) := by
    have h0 : casdriv.pvalIter (.tup vs) = vs.map casdriv.CellVal.s := rfl
    rw [h0, zip_take_length kks (vs.map casdriv.CellVal.s), List.length_map]
  constructor
  · simp only [casdriv.read_entry, hz]
  · simp only [casdriv.read_entry, hz]
    exact model_get_ne_shape _ _

/-- C10 witness: two key names, one value — the lookup filter uses only the
first pair and the call reaches the driver lookup (no shape error). -/
theorem c10_zip_truncation_witness :
    casdriv.read_entry casdriv.sampleModel (.container ["latin", "german"])
        (.tup ["x"]) none none =
      (casdriv.bindModel casdriv.sampleModel none none,
       casdriv.model_get (casdriv.bindModel casdriv.sampleModel none none)
         (casdriv.dictOf ((["latin", "german"].take 1).zip
           (["x"].map casdriv.CellVal.s)))) :=
  (c10_zip_truncation casdriv.sampleModel ["latin", "german"] ["x"] none none
    (by decide)).1

/-- C1 counterexample: the claim "no statement is sent to the session" fails
for `drop_row`'s value check: probing the current primary-key values requires
a SELECT, which is executed through the session before the value check can
fail, so the failing call has sent a (non-empty) statement list. -/
theorem c1_counterexample :
    (cql.drop_row cql.sampleCnS "k" "t" "p" "nope").1 =
      .error (.unknownValue "nope") ∧
    (cql.drop_row cql.sampleCnS "k" "t" "p" "nope").2 = ["SELECT p FROM k.t"] ∧
    (cql.drop_row cql.sampleCnS "k" "t" "p" "nope").2 ≠ [] := by
  refine ⟨rfl, rfl, by decide⟩

/-- C1 amended: for every whitelist-checked operation, an unknown keyspace,
table, column or primary key fails with the corresponding `Unknown*` error
with no statement sent to the session, the checks running in the fixed order
keyspace → table → column/key → value with the first failing check
short-circuiting the rest; for `drop_row`'s value check, an absent value
fails with `UnknownValue` and the DELETE is not executed, though the
value-probing SELECT issued by the check itself has already been sent. -/
theorem c1_whitelist_soundness (cluster : cql.ClusterMeta)
    (session : cql.Session) (cns : cql.CnS) (ks t c pk v : String) :
    (ks ∉ cql.list_cluster_keyspaces cluster →
      cql.list_column_values cluster session ks t c =
        (.error (.unknownKeyspace ks), []) ∧
      cql.get_all_entries cluster session ks t =
        (.error (.unknownKeyspace ks), []) ∧
      cql.drop_all_rows cluster session ks t =
        (.error (.unknownKeyspace ks), [])) ∧
    (ks ∉ cql.list_cluster_keyspaces cns.cluster →
      cql.drop_row cns ks t pk v = (.error (.unknownKeyspace ks), [])) ∧
    (ks ∈ cql.list_cluster_keyspaces cluster →
      t ∉ cql.list_keyspace_tables cluster ks →
      cql.list_column_values cluster session ks t c =
        (.error (.unknownTable t), []) ∧
      cql.get_all_entries cluster session ks t =
        (.error (.unknownTable t), []) ∧
      cql.drop_all_rows cluster session ks t =
        (.error (.unknownTable t), [])) ∧
    (ks ∈ cql.list_cluster_keyspaces cns.cluster →
      t ∉ cql.list_keyspace_tables cns.cluster ks →
      cql.drop_row cns ks t pk v = (.error (.unknownTable t), [])) ∧
    (ks ∈ cql.list_cluster_keyspaces cluster →
      t ∈ cql.list_keyspace_tables cluster ks →
      c ∉ cql.list_table_columns cluster ks t →
      cql.list_column_values cluster session ks t c =
        (.error (.unknownColumn c), [])) ∧
    (ks ∈ cql.list_cluster_keyspaces cns.cluster →
      t ∈ cql.list_keyspace_tables cns.cluster ks →
      pk ∉ cql.list_table_primary_keys cns.cluster ks t →
      cql.drop_row cns ks t pk v = (.error (.unknownPrimaryKey pk), [])) ∧
    (ks ∈ cql.list_cluster_keyspaces cns.cluster →
      t ∈ cql.list_keyspace_tables cns.cluster ks →
      pk ∈ cql.list_table_primary_keys cns.cluster ks t →
      pk ∈ cql.list_table_columns cns.cluster ks t →
      some v ∉ (cns.session.rows
          ("SELECT " ++ pk ++ " FROM " ++ ks ++ "." ++ t)).map
            (fun r => alookup r pk) →
      cql.drop_row cns ks t pk v = (.error (.unknownValue v),
        ["SELECT " ++ pk ++ " FROM " ++ ks ++ "." ++ t])) := by
  refine ⟨fun h1 => ⟨?_, ?_, ?_⟩, fun h1 => ?_, fun h1 h2 => ⟨?_, ?_, ?_⟩,
    fun h1 h2 => ?_, fun h1 h2 h3 => ?_, fun h1 h2 h3 => ?_,
    fun h1 h2 h3 h4 h5 => ?_⟩ <;>
    simp [cql.list_column_values, cql.get_all_entries, cql.drop_all_rows,
      cql.drop_row, *]

/-- C1 witness: the theorem applied at the sample cluster, with a keyspace
missing from the metadata. -/
theorem c1_whitelist_soundness_witness :
    cql.list_column_values cql.sampleCluster cql.emptySession "nope" "t" "c" =
      (.error (.unknownKeyspace "nope"), []) :=
  ((c1_whitelist_soundness cql.sampleCluster cql.emptySession cql.sampleCnS
    "nope" "t" "c" "p" "v").1 (by decide)).1

theorem fsRead_fsWrite_self (fs : model.FS) (p c : String) :
    model.fsRead (model.fsWrite fs p c) p = some c := by
  induction fs with
  | nil => simp [model.fsWrite, model.fsRead, alookup]
  | cons e rest ih =>
    obtain ⟨k, v⟩ := e
    by_cases hk : k = p
    · simp [model.fsWrite, model.fsRead, alookup, hk]
    · simp only [model.fsWrite, if_neg hk]
      simpa [model.fsRead, alookup, hk] using ih

theorem fsRead_fsWrite_other (fs : model.FS) (p c q : String) (h : q ≠ p) :
    model.fsRead (model.fsWrite fs p c) q = model.fsRead fs q := by
  induction fs with
  | nil => simp [model.fsWrite, model.fsRead, alookup, h.symm]
  | cons e rest ih =>
    obtain ⟨k, v⟩ := e
    by_cases hk : k = p
    · subst hk
      simp [model.fsWrite, model.fsRead, alookup, h.symm]
    · simp only [model.fsWrite, if_neg hk]
      by_cases hkq : k = q
      · simp [model.fsRead, alookup, hkq]
      · simpa [model.fsRead, alookup, hkq] using ih

/-- C3: creating at a location already holding an artifact with
`overwrite=False` fails with the `FileExistsError` conflict error, performs
no write at all (the filesystem is returned unchanged), and the existing
artifact's content is untouched. -/
theorem c3_no_overwrite (fs : model.FS) (meta_model : model.MetaModel)
    (path : model.FPath) (bk : Bool) (uid c : String)
    (h : model.fsRead fs (model.fullPath path) = some c) :
    model.create_data_model fs meta_model path false bk uid =
      (fs, .error (.artifactExists (model.fullPath path))) ∧
    model.fsRead (model.create_data_model fs meta_model path false bk uid).1
      (model.fullPath path) = some c ∧
    pyExcKind (.artifactExists (model.fullPath path)) = .fileExistsError := by
  have h1 : model.create_data_model fs meta_model path false bk uid =
      (fs, .error (.artifactExists (model.fullPath path))) := by
    simp [model.create_data_model, model.handle_path, h]
  exact ⟨h1, by rw [h1]; exact h, rfl⟩

/-- C3 witness: the theorem applied at a one-file filesystem. -/
theorem c3_no_overwrite_witness :
    model.create_data_model [(model.fullPath model.samplePath, "old")]
        model.sampleMeta model.samplePath false true "u1" =
      ([(model.fullPath model.samplePath, "old")],
       .error (.artifactExists (model.fullPath model.samplePath))) :=
  (c3_no_overwrite [(model.fullPath model.samplePath, "old")] model.sampleMeta
    model.samplePath true "u1" "old" rfl).1

/-- C4: overwriting an existing artifact with `backup=True` first copies the
existing content byte-for-byte to the sibling backup path (original stem +
`_backup_` + fresh uid + original extensions) while the original still holds
its old content, and only then replaces the original with the newly rendered
content; apart from the written target and the single new backup file the
filesystem is unchanged. -/
theorem c4_overwrite_backup (fs : model.FS) (meta_model : model.MetaModel)
    (path : model.FPath) (uid c : String)
    (h : model.fsRead fs (model.fullPath path) = some c)
    (hfresh : model.fsRead fs (model.fullPath (model.backupPath path uid)) =
      none) :
    model.handle_path fs path true true uid =
      (model.fsWrite fs (model.fullPath (model.backupPath path uid)) c,
       .ok path) ∧
    model.fsRead (model.fsWrite fs
        (model.fullPath (model.backupPath path uid)) c)
      (model.fullPath path) = some c ∧
    model.fsRead (model.fsWrite fs
        (model.fullPath (model.backupPath path uid)) c)
      (model.fullPath (model.backupPath path uid)) = some c ∧
    (model.create_data_model fs meta_model path true true uid).2 =
      .ok path ∧
    model.fsRead (model.create_data_model fs meta_model path true true uid).1
      (model.fullPath (model.backupPath path uid)) = some c ∧
    model.fsRead (model.create_data_model fs meta_model path true true uid).1
      (model.fullPath path) =
      some (String.join (model.write_model_lines meta_model
        (model.fullPath path))) ∧
    (∀ q, q ≠ model.fullPath path →
      q ≠ model.fullPath (model.backupPath path uid) →
      model.fsRead (model.create_data_model fs meta_model path true true
        uid).1 q = model.fsRead fs q) := by
  have hne : model.fullPath path ≠ model.fullPath (model.backupPath path uid) := by
    intro e
    rw [e, hfresh] at h
    exact Option.noConfusion h
  have h1 : model.handle_path fs path true true uid =
      (model.fsWrite fs (model.fullPath (model.backupPath path uid)) c,
       .ok path) := by
    simp [model.handle_path, h]
  have h2 : model.create_data_model fs meta_model path true true uid =
      (model.fsWrite
        (model.fsWrite fs (model.fullPath (model.backupPath path uid)) c)
        (model.fullPath path)
        (String.join (model.write_model_lines meta_model
          (model.fullPath path))),
       .ok path) := by
    simp [model.create_data_model, h1]
  refine ⟨h1, ?_, fsRead_fsWrite_self _ _ _, by rw [h2], ?_, ?_, ?_⟩
  · rw [fsRead_fsWrite_other _ _ _ _ hne]
    exact h
  · rw [h2]
    rw [fsRead_fsWrite_other _ _ _ _ hne.symm]
    exact fsRead_fsWrite_self _ _ _
  · rw [h2]
    exact fsRead_fsWrite_self _ _ _
  · intro q hq1 hq2
    rw [h2]
    rw [fsRead_fsWrite_other _ _ _ _ hq1, fsRead_fsWrite_other _ _ _ _ hq2]

/-- C4 witness: the theorem applied at a one-file filesystem; the backup file
holds the pre-overwrite content. -/
theorem c4_overwrite_backup_witness :
    model.fsRead (model.create_data_model
        [(model.fullPath model.samplePath, "old")] model.sampleMeta
        model.samplePath true true "u1").1
      (model.fullPath (model.backupPath model.samplePath "u1")) =
      some "old" :=
  (c4_overwrite_backup [(model.fullPath model.samplePath, "old")]
    model.sampleMeta model.samplePath "u1" "old" rfl rfl).2.2.2.2.1

theorem model_get_eq_notFound (m : casdriv.Model)
    (d : List (String × casdriv.CellVal))
    (h : m.rows.filter (fun r => casdriv.rowMatches r d) = []) :
    casdriv.model_get m d = .error .notFound := by
  unfold casdriv.model_get
  rw [h]

/-- C5: `delete_entry` performs the `read_entry` lookup first; whenever that
read fails, `delete_entry` fails with the very same error and leaves the
stored rows untouched; and after a successful delete, re-reading the same
key/value pairing fails with the driver's not-found error. -/
theorem c5_delete_reads_first (m0 : casdriv.Model) (pk : casdriv.PKeys)
    (vals : casdriv.PVals) (ks con : Option String) :
    (∀ e, (casdriv.read_entry m0 pk vals ks con).2 = .error e →
       (casdriv.delete_entry m0 pk vals ks con).2 = .error e ∧
       (casdriv.delete_entry m0 pk vals ks con).1.rows = m0.rows) ∧
    ((casdriv.delete_entry m0 pk vals ks con).2 = .ok () →
       (casdriv.read_entry (casdriv.delete_entry m0 pk vals ks con).1
         pk vals ks con).2 = .error .notFound) := by
  have h1 : (casdriv.read_entry m0 pk vals ks con).1 =
      casdriv.bindModel m0 ks con := read_entry_fst m0 pk vals ks con
  constructor
  · intro e he
    cases hr : casdriv.read_entry m0 pk vals ks con with
    | mk m r =>
      rw [hr] at he
      simp only at he
      subst he
      have hm : m = casdriv.bindModel m0 ks con := by rw [← h1, hr]
      constructor
      · unfold casdriv.delete_entry
        rw [hr]
      · unfold casdriv.delete_entry
        rw [hr]
        simp only
        rw [hm, bindModel_rows]
  · intro hok
    cases hr : casdriv.read_entry m0 pk vals ks con with
    | mk m r =>
      cases r with
      | error e2 =>
        unfold casdriv.delete_entry at hok
        rw [hr] at hok
        simp at hok
      | ok entry =>
        have hm : m = casdriv.bindModel m0 ks con := by rw [← h1, hr]
        have hd : casdriv.delete_entry m0 pk vals ks con =
            ({ m with rows := casdriv.eraseFirst m.rows entry }, .ok ()) := by
          unfold casdriv.delete_entry
          rw [hr]
        rw [hd]
        cases pk with
        | other =>
          exact absurd (congrArg Prod.snd hr) (by simp [casdriv.read_entry])
        | str s =>
          have hg : casdriv.model_get (casdriv.bindModel m0 ks con)
              [(s, casdriv.pvalCell vals)] = .ok entry := by
            have h2 := congrArg Prod.snd hr
            simpa [casdriv.read_entry] using h2
          have hf := model_get_ok _ _ _ hg
          simp only [casdriv.read_entry]
          apply model_get_eq_notFound
          rw [bindModel_rows]
          simp only
          rw [hm]
          exact filter_eraseFirst _ _ _ hf
        | container ksl =>
          have hg : casdriv.model_get (casdriv.bindModel m0 ks con)
              (casdriv.dictOf (ksl.zip (casdriv.pvalIter vals))) =
              .ok entry := by
            have h2 := congrArg Prod.snd hr
            simpa [casdriv.read_entry] using h2
          have hf := model_get_ok _ _ _ hg
          simp only [casdriv.read_entry]
          apply model_get_eq_notFound
          rw [bindModel_rows]
          simp only
          rw [hm]
          exact filter_eraseFirst _ _ _ hf

/-- C5 witness: deleting the sample row by `latin = x` succeeds, and the
subsequent read of the same key fails with the not-found error. -/
theorem c5_delete_reads_first_witness :
    (casdriv.read_entry (casdriv.delete_entry casdriv.sampleModel
        (.str "latin") (.str "x") none none).1
      (.str "latin") (.str "x") none none).2 = .error .notFound :=
  (c5_delete_reads_first casdriv.sampleModel (.str "latin") (.str "x")
    none none).2 rfl

/-! ## Round-trip machinery for C2 -/

theorem isPrefixOf_append_self (a b : List Char) :
    a.isPrefixOf (a ++ b) = true :=
  List.isPrefixOf_iff_prefix.mpr (List.prefix_append a b)

theorem splitFirst_append (s : Char) (sep' a b : List Char) (h : s ∉ a) :
    model.splitFirst (s :: sep') (a ++ s :: (sep' ++ b)) = some (a, b) := by
  induction a with
  | nil =>
    have hp : (s :: sep').isPrefixOf ((s :: sep') ++ b) = true :=
      isPrefixOf_append_self _ _
    simp only [List.cons_append] at hp
    have hd : (s :: (sep' ++ b)).drop (s :: sep').length = b := by
      have := List.drop_left (s :: sep') b
      simpa using this
    simp [model.splitFirst, hp, hd]
  | cons c a ih =>
    have hcs : s ≠ c := fun e => h (by simp [e])
    have hrest : s ∉ a := fun e => h (List.mem_cons_of_mem _ e)
    simp only [List.cons_append]
    simp [model.splitFirst, List.isPrefixOf, hcs, ih hrest]

theorem valid_no_char (s0 : String) (h : model.isValidIdent s0 = true) :
    ' ' ∉ s0.data ∧ '(' ∉ s0.data ∧ '\n' ∉ s0.data := by
  have hall : ∀ c ∈ s0.data, model.isIdentChar c = true := by
    simp only [model.isValidIdent, Bool.and_eq_true, List.all_eq_true] at h
    exact fun c hc => h.1.2 c hc
  exact ⟨fun hm => absurd (hall _ hm) (by decide),
    fun hm => absurd (hall _ hm) (by decide),
    fun hm => absurd (hall _ hm) (by decide)⟩

theorem parse_decl_rendered (n t : String) (tail : List Char)
    (hn : model.isValidIdent n = true) (ht : model.isValidIdent t = true) :
    model.parse_decl ("    ".data ++ (n.data ++ (" = columns.".data ++
      (t.data ++ ('(' :: tail))))) =
    model.classifyArgs n.data t.data tail := by
  obtain ⟨hsp, -, -⟩ := valid_no_char n hn
  obtain ⟨-, tpar, -⟩ := valid_no_char t ht
  have e2 : model.splitFirst (" = columns.".data)
      (n.data ++ (" = columns.".data ++ (t.data ++ ('(' :: tail)))) =
      some (n.data, t.data ++ ('(' :: tail)) :=
    splitFirst_append ' ' ("= columns.".data) n.data _ hsp
  have e3 : model.splitFirst ['('] (t.data ++ ('(' :: tail)) =
      some (t.data, tail) := by
    have h0 := splitFirst_append '(' [] t.data tail tpar
    simpa using h0
  have e0 : ("    ".data ++ (n.data ++ (" = columns.".data ++
      (t.data ++ ('(' :: tail))))).drop 4 =
      n.data ++ (" = columns.".data ++ (t.data ++ ('(' :: tail))) :=
    List.drop_left "    ".data _
  simp only [model.parse_decl, isPrefixOf_append_self, if_true, e0, e2, e3]

theorem parse_pkBody (n t : String) (hn : model.isValidIdent n = true)
    (ht : model.isValidIdent t = true) :
    model.parse_decl (model.pkBody (n, t)) = some (.pk n t) := by
  have e1 : model.pkBody (n, t) =
      "    ".data ++ (n.data ++ (" = columns.".data ++
        (t.data ++ ('(' :: "primary_key=True)".data)))) := by
    simp only [model.pkBody, List.append_assoc]
  rw [e1, parse_decl_rendered n t _ hn ht]
  rfl

theorem parse_colBody (n t : String) (hn : model.isValidIdent n = true)
    (ht : model.isValidIdent t = true) :
    model.parse_decl (model.colBody (n, t)) = some (.col n t) := by
  have e1 : model.colBody (n, t) =
      "    ".data ++ (n.data ++ (" = columns.".data ++
        (t.data ++ ('(' :: ")".data)))) := by
    simp only [model.colBody, List.append_assoc]
  rw [e1, parse_decl_rendered n t _ hn ht]
  rfl

theorem parse_ckBody (n t o : String) (hn : model.isValidIdent n = true)
    (ht : model.isValidIdent t = true) (ho : o = "ASC" ∨ o = "DESC") :
    model.parse_decl (model.ckBody (n, (t, o))) = some (.ck n t o) := by
  have e1 : model.ckBody (n, (t, o)) =
      "    ".data ++ (n.data ++ (" = columns.".data ++
        (t.data ++ ('(' :: (model.ckArgPre ++ (o.data ++ "')".data)))))) := by
    simp only [model.ckBody, model.ckArgPre, List.append_assoc]
    rfl
  rcases ho with rfl | rfl <;>
    · rw [e1, parse_decl_rendered n t _ hn ht]
      rfl

theorem parse_decl_not_space (c : Char) (l : List Char) (h : c ≠ ' ') :
    model.parse_decl (c :: l) = none := by
  have h2 : ¬ (' ' = c) := fun e => h e.symm
  have h3 : ("    ".data).isPrefixOf (c :: l) = false := by
    simp [List.isPrefixOf, h2]
  simp [model.parse_decl, h3]

theorem parse_class_name_not_c (c : Char) (l : List Char) (h : c ≠ 'c') :
    model.parse_class_name (c :: l) = none := by
  have h2 : ¬ ('c' = c) := fun e => h e.symm
  have h3 : ("class ".data).isPrefixOf (c :: l) = false := by
    simp [List.isPrefixOf, h2]
  simp [model.parse_class_name, h3]

theorem parse_class_name_rendered (n : String)
    (hn : model.isValidIdent n = true) :
    model.parse_class_name ("class ".data ++ (n.data ++ "(Model):".data)) =
      some n := by
  obtain ⟨-, hpar, -⟩ := valid_no_char n hn
  have e3 : model.splitFirst ['('] (n.data ++ ('(' :: "Model):".data)) =
      some (n.data, "Model):".data) := by
    have h0 := splitFirst_append '(' [] n.data "Model):".data hpar
    simpa using h0
  have e0 : ("class ".data ++ (n.data ++ "(Model):".data)).drop 6 =
      n.data ++ "(Model):".data :=
    List.drop_left "class ".data _
  have e0' : ("class ".data ++ (n.data ++ "(Model):".data)).drop 6 =
      n.data ++ ('(' :: "Model):".data) := e0
  simp only [model.parse_class_name, isPrefixOf_append_self, if_true, e0', e3]

theorem pkLine_data (kv : String × String) :
    (model.pkLine kv).data = model.pkBody kv ++ ['\n'] := by
  simp only [model.pkLine, model.pkBody, String.data_append, List.append_assoc]
  rfl

theorem ckLine_data (kv : String × (String × String)) :
    (model.ckLine kv).data = model.ckBody kv ++ ['\n'] := by
  simp only [model.ckLine, model.ckBody, String.data_append, List.append_assoc]
  rfl

theorem colLine_data (kv : String × String) :
    (model.colLine kv).data = model.colBody kv ++ ['\n'] := by
  simp only [model.colLine, model.colBody, String.data_append, List.append_assoc]
  rfl

theorem foldl_append_data (l : List String) (s : String) :
    (l.foldl (fun r s2 => r ++ s2) s).data =
      s.data ++ (l.map String.data).flatten := by
  induction l generalizing s with
  | nil => simp
  | cons x rest ih =>
    simp only [List.foldl_cons, List.map_cons, List.flatten_cons]
    rw [ih (s ++ x), String.data_append, List.append_assoc]

theorem data_join (l : List String) :
    (String.join l).data = (l.map String.data).flatten := by
  have h0 := foldl_append_data l ""
  simpa [String.join] using h0

theorem content_data_eq (mm : model.MetaModel) (path : String) :
    (String.join (model.write_model_lines mm path)).data =
      model.joinLines (model.logicalLines mm path) := by
  have fpk : (fun kv => (model.pkLine kv).data) =
      fun kv => model.pkBody kv ++ ['\n'] := funext pkLine_data
  have fck : (fun kv => (model.ckLine kv).data) =
      fun kv => model.ckBody kv ++ ['\n'] := funext ckLine_data
  have fcol : (fun kv => (model.colLine kv).data) =
      fun kv => model.colBody kv ++ ['\n'] := funext colLine_data
  rw [data_join]
  simp only [model.write_model_lines, model.logicalLines, model.joinLines,
    List.map_append, List.map_cons, List.map_nil, List.flatten_append,
    List.flatten_cons, List.flatten_nil, List.map_map, Function.comp_def,
    fpk, fck, fcol, String.data_append, List.append_assoc, List.cons_append,
    List.nil_append, List.append_nil]

theorem splitOn_joinLines (ls : List (List Char))
    (h : ∀ l ∈ ls, '\n' ∉ l) :
    (model.joinLines ls).splitOn '\n' = ls ++ [[]] := by
  induction ls with
  | nil => simp [model.joinLines]
  | cons l rest ih =>
    have h1 : ∀ x ∈ l, ¬ ((x == '\n') = true) := by
      intro x hx e
      exact h l (List.mem_cons_self _ _) (beq_iff_eq.mp e ▸ hx)
    have h2 : model.joinLines (l :: rest) =
        l ++ '\n' :: model.joinLines rest := by
      simp [model.joinLines]
    rw [h2]
    show (l ++ '\n' :: model.joinLines rest).splitOnP (· == '\n') = _
    rw [List.splitOnP_first _ l h1 '\n' (by simp)]
    have := ih (fun l2 hl2 => h l2 (List.mem_cons_of_mem _ hl2))
    simpa [List.splitOn] using this

theorem filterMap_pkBlock (pks : List (String × String))
    (h : ∀ kv ∈ pks, model.isValidIdent kv.1 = true ∧
      model.isValidIdent kv.2 = true) :
    (pks.map model.pkBody).filterMap model.parse_decl =
      pks.map (fun kv => model.Decl.pk kv.1 kv.2) := by
  induction pks with
  | nil => rfl
  | cons kv rest ih =>
    obtain ⟨a, b⟩ := kv
    have hkv := h (a, b) (List.mem_cons_self _ _)
    simp only [List.map_cons, List.filterMap_cons,
      parse_pkBody a b hkv.1 hkv.2]
    rw [ih (fun kv2 h2 => h kv2 (List.mem_cons_of_mem _ h2))]

theorem filterMap_ckBlock (cks : List (String × (String × String)))
    (h : ∀ kv ∈ cks, model.isValidIdent kv.1 = true ∧
      model.isValidIdent kv.2.1 = true ∧
      (kv.2.2 = "ASC" ∨ kv.2.2 = "DESC")) :
    (cks.map model.ckBody).filterMap model.parse_decl =
      cks.map (fun kv => model.Decl.ck kv.1 kv.2.1 kv.2.2) := by
  induction cks with
  | nil => rfl
  | cons kv rest ih =>
    obtain ⟨a, b, o⟩ := kv
    have hkv := h (a, (b, o)) (List.mem_cons_self _ _)
    simp only [List.map_cons, List.filterMap_cons,
      parse_ckBody a b o hkv.1 hkv.2.1 hkv.2.2]
    rw [ih (fun kv2 h2 => h kv2 (List.mem_cons_of_mem _ h2))]

theorem filterMap_colBlock (cols : List (String × String))
    (h : ∀ kv ∈ cols, model.isValidIdent kv.1 = true ∧
      model.isValidIdent kv.2 = true) :
    (cols.map model.colBody).filterMap model.parse_decl =
      cols.map (fun kv => model.Decl.col kv.1 kv.2) := by
  induction cols with
  | nil => rfl
  | cons kv rest ih =>
    obtain ⟨a, b⟩ := kv
    have hkv := h (a, b) (List.mem_cons_self _ _)
    simp only [List.map_cons, List.filterMap_cons,
      parse_colBody a b hkv.1 hkv.2]
    rw [ih (fun kv2 h2 => h kv2 (List.mem_cons_of_mem _ h2))]

theorem validMeta_parts (mm : model.MetaModel)
    (hv : model.validMeta mm = true) :
    model.isValidIdent mm.name = true ∧
    (∀ kv ∈ mm.primary_keys, model.isValidIdent kv.1 = true ∧
      model.isValidIdent kv.2 = true) ∧
    (∀ kv ∈ mm.clustering_keys, model.isValidIdent kv.1 = true ∧
      model.isValidIdent kv.2.1 = true ∧
      (kv.2.2 = "ASC" ∨ kv.2.2 = "DESC")) ∧
    (∀ kv ∈ mm.columns, model.isValidIdent kv.1 = true ∧
      model.isValidIdent kv.2 = true) := by
  simp only [model.validMeta, Bool.and_eq_true, List.all_eq_true,
    Bool.or_eq_true, decide_eq_true_eq] at hv
  obtain ⟨⟨⟨hname, hpk⟩, hck⟩, hcol⟩ := hv
  exact ⟨hname, fun kv h2 => (hpk kv h2),
    fun kv h2 => ⟨(hck kv h2).1.1, (hck kv h2).1.2, (hck kv h2).2⟩,
    fun kv h2 => (hcol kv h2)⟩

theorem pkBody_no_newline (kv : String × String)
    (h1 : model.isValidIdent kv.1 = true)
    (h2 : model.isValidIdent kv.2 = true) : '\n' ∉ model.pkBody kv := by
  obtain ⟨-, -, hn1⟩ := valid_no_char kv.1 h1
  obtain ⟨-, -, hn2⟩ := valid_no_char kv.2 h2
  intro hm
  simp only [model.pkBody, List.mem_append] at hm
  rcases hm with ((((hm | hm) | hm) | hm) | hm)
  · exact absurd hm (by decide)
  · exact hn1 hm
  · exact absurd hm (by decide)
  · exact hn2 hm
  · exact absurd hm (by decide)

theorem ckBody_no_newline (kv : String × (String × String))
    (h1 : model.isValidIdent kv.1 = true)
    (h2 : model.isValidIdent kv.2.1 = true)
    (h3 : kv.2.2 = "ASC" ∨ kv.2.2 = "DESC") : '\n' ∉ model.ckBody kv := by
  obtain ⟨-, -, hn1⟩ := valid_no_char kv.1 h1
  obtain ⟨-, -, hn2⟩ := valid_no_char kv.2.1 h2
  intro hm
  simp only [model.ckBody, List.mem_append] at hm
  rcases hm with ((((((hm | hm) | hm) | hm) | hm) | hm) | hm)
  · exact absurd hm (by decide)
  · exact hn1 hm
  · exact absurd hm (by decide)
  · exact hn2 hm
  · exact absurd hm (by decide)
  · rcases h3 with h3 | h3 <;> rw [h3] at hm <;> exact absurd hm (by decide)
  · exact absurd hm (by decide)

theorem colBody_no_newline (kv : String × String)
    (h1 : model.isValidIdent kv.1 = true)
    (h2 : model.isValidIdent kv.2 = true) : '\n' ∉ model.colBody kv := by
  obtain ⟨-, -, hn1⟩ := valid_no_char kv.1 h1
  obtain ⟨-, -, hn2⟩ := valid_no_char kv.2 h2
  intro hm
  simp only [model.colBody, List.mem_append] at hm
  rcases hm with ((((hm | hm) | hm) | hm) | hm)
  · exact absurd hm (by decide)
  · exact hn1 hm
  · exact absurd hm (by decide)
  · exact hn2 hm
  · exact absurd hm (by decide)

theorem logicalLines_no_newline (mm : model.MetaModel) (path : String)
    (hv : model.validMeta mm = true) (hp : '\n' ∉ path.data) :
    ∀ l ∈ model.logicalLines mm path, '\n' ∉ l := by
  obtain ⟨hname, hpk, hck, hcol⟩ := validMeta_parts mm hv
  obtain ⟨-, -, hnname⟩ := valid_no_char mm.name hname
  intro l hl
  simp only [model.logicalLines] at hl
  rcases List.mem_append.mp hl with h4 | hc
  rotate_left
  · obtain ⟨kv, hkv, rfl⟩ := List.mem_map.mp hc
    exact colBody_no_newline kv (hcol kv hkv).1 (hcol kv hkv).2
  rcases List.mem_append.mp h4 with h3 | hs
  rotate_left
  · simp only [List.mem_cons, List.not_mem_nil, or_false] at hs
    rcases hs with rfl | rfl
    · simp
    · decide
  rcases List.mem_append.mp h3 with h2 | hc
  rotate_left
  · obtain ⟨kv, hkv, rfl⟩ := List.mem_map.mp hc
    exact ckBody_no_newline kv (hck kv hkv).1 (hck kv hkv).2.1
      (hck kv hkv).2.2
  rcases List.mem_append.mp h2 with hh | hc
  rotate_left
  · obtain ⟨kv, hkv, rfl⟩ := List.mem_map.mp hc
    exact pkBody_no_newline kv (hpk kv hkv).1 (hpk kv hkv).2
  simp only [List.mem_cons, List.not_mem_nil, or_false] at hh
  rcases hh with rfl | rfl | rfl | rfl | rfl | rfl | rfl
  · intro hm
    rcases List.mem_append.mp hm with hm | hm
    · exact absurd hm (by decide)
    · exact hp hm
  · decide
  · decide
  · decide
  · simp
  · simp
  · intro hm
    rcases List.mem_append.mp hm with hm | hm
    · exact absurd hm (by decide)
    · rcases List.mem_append.mp hm with hm | hm
      · exact hnname hm
      · exact absurd hm (by decide)

theorem filterMap_logicalLines (mm : model.MetaModel) (path : String)
    (hv : model.validMeta mm = true) :
    (model.logicalLines mm path ++ [[]]).filterMap model.parse_decl =
      model.renderDecls mm := by
  obtain ⟨hname, hpk, hck, hcol⟩ := validMeta_parts mm hv
  have n1 : model.parse_decl ('#' :: ' ' :: path.data) = none :=
    parse_decl_not_space '#' _ (by decide)
  have n7 : model.parse_decl ('c' :: 'l' :: 'a' :: 's' :: 's' :: ' ' ::
      (mm.name.data ++ ['(', 'M', 'o', 'd', 'e', 'l', ')', ':'])) = none :=
    parse_decl_not_space 'c' _ (by decide)
  have n2 : model.parse_decl "# automatically created using cassy".data =
      none := by decide
  have n3 : model.parse_decl
      "from cassandra.cqlengine import columns".data = none := by decide
  have n4 : model.parse_decl
      "from cassandra.cqlengine.models import Model".data = none := by decide
  have n5 : model.parse_decl [] = none := rfl
  have n6 : model.parse_decl "    # Regular Table Columns:".data = none := by
    decide
  simp only [model.logicalLines, model.renderDecls, List.cons_append,
    List.nil_append, List.filterMap_cons, List.filterMap_append,
    List.filterMap_nil, n1, n2, n3, n4, n5, n6, n7,
    filterMap_pkBlock _ hpk, filterMap_ckBlock _ hck,
    filterMap_colBlock _ hcol, List.append_nil, List.nil_append]

theorem find_class_name_logicalLines (mm : model.MetaModel) (path : String)
    (hname : model.isValidIdent mm.name = true) :
    model.find_class_name (model.logicalLines mm path ++ [[]]) =
      some mm.name := by
  have c1 : model.parse_class_name ('#' :: ' ' :: path.data) = none :=
    parse_class_name_not_c '#' _ (by decide)
  have c2 : model.parse_class_name
      "# automatically created using cassy".data = none := by decide
  have c3 : model.parse_class_name
      "from cassandra.cqlengine import columns".data = none := by decide
  have c4 : model.parse_class_name
      "from cassandra.cqlengine.models import Model".data = none := by decide
  have c5 : model.parse_class_name [] = none := rfl
  have c7 : model.parse_class_name ('c' :: 'l' :: 'a' :: 's' :: 's' :: ' ' ::
      (mm.name.data ++ ['(', 'M', 'o', 'd', 'e', 'l', ')', ':'])) =
      some mm.name :=
    parse_class_name_rendered mm.name hname
  simp only [model.find_class_name, model.logicalLines, List.cons_append,
    List.nil_append, List.findSome?_cons, c1, c2, c3, c4, c5, c7]

theorem renderDecls_pk (mm : model.MetaModel) :
    (model.renderDecls mm).filterMap (fun d =>
      match d with
      | model.Decl.pk n t => some (n, t)
      | _ => none) = mm.primary_keys := by
  simp only [model.renderDecls, List.filterMap_append, List.filterMap_map]
  have h1 : ∀ (l : List (String × String)), l.filterMap ((fun d =>
      match d with
      | model.Decl.pk n t => some (n, t)
      | _ => none) ∘ (fun kv => model.Decl.pk kv.1 kv.2)) = l := by
    intro l
    induction l with
    | nil => rfl
    | cons kv r ih => simp_all [Function.comp_def]
  have h2 : ∀ (l : List (String × (String × String))), l.filterMap ((fun d =>
      match d with
      | model.Decl.pk n t => some (n, t)
      | _ => none) ∘ (fun kv => model.Decl.ck kv.1 kv.2.1 kv.2.2)) = [] := by
    intro l
    induction l with
    | nil => rfl
    | cons kv r ih => simp_all [Function.comp_def]
  have h3 : ∀ (l : List (String × String)), l.filterMap ((fun d =>
      match d with
      | model.Decl.pk n t => some (n, t)
      | _ => none) ∘ (fun kv => model.Decl.col kv.1 kv.2)) = [] := by
    intro l
    induction l with
    | nil => rfl
    | cons kv r ih => simp_all [Function.comp_def]
  rw [h1, h2, h3]
  simp

theorem renderDecls_ck (mm : model.MetaModel) :
    (model.renderDecls mm).filterMap (fun d =>
      match d with
      | model.Decl.ck n t o => some (n, (t, o))
      | _ => none) = mm.clustering_keys := by
  simp only [model.renderDecls, List.filterMap_append, List.filterMap_map]
  have h1 : ∀ (l : List (String × String)), l.filterMap ((fun d =>
      match d with
      | model.Decl.ck n t o => some (n, (t, o))
      | _ => none) ∘ (fun kv => model.Decl.pk kv.1 kv.2)) = [] := by
    intro l
    induction l with
    | nil => rfl
    | cons kv r ih => simp_all [Function.comp_def]
  have h2 : ∀ (l : List (String × (String × String))), l.filterMap ((fun d =>
      match d with
      | model.Decl.ck n t o => some (n, (t, o))
      | _ => none) ∘ (fun kv => model.Decl.ck kv.1 kv.2.1 kv.2.2)) = l := by
    intro l
    induction l with
    | nil => rfl
    | cons kv r ih => simp_all [Function.comp_def]
  have h3 : ∀ (l : List (String × String)), l.filterMap ((fun d =>
      match d with
      | model.Decl.ck n t o => some (n, (t, o))
      | _ => none) ∘ (fun kv => model.Decl.col kv.1 kv.2)) = [] := by
    intro l
    induction l with
    | nil => rfl
    | cons kv r ih => simp_all [Function.comp_def]
  rw [h1, h2, h3]
  simp

theorem renderDecls_col (mm : model.MetaModel) :
    (model.renderDecls mm).filterMap (fun d =>
      match d with
      | model.Decl.col n t => some (n, t)
      | _ => none) = mm.columns := by
  simp only [model.renderDecls, List.filterMap_append, List.filterMap_map]
  have h1 : ∀ (l : List (String × String)), l.filterMap ((fun d =>
      match d with
      | model.Decl.col n t => some (n, t)
      | _ => none) ∘ (fun kv => model.Decl.pk kv.1 kv.2)) = [] := by
    intro l
    induction l with
    | nil => rfl
    | cons kv r ih => simp_all [Function.comp_def]
  have h2 : ∀ (l : List (String × (String × String))), l.filterMap ((fun d =>
      match d with
      | model.Decl.col n t => some (n, t)
      | _ => none) ∘ (fun kv => model.Decl.ck kv.1 kv.2.1 kv.2.2)) = [] := by
    intro l
    induction l with
    | nil => rfl
    | cons kv r ih => simp_all [Function.comp_def]
  have h3 : ∀ (l : List (String × String)), l.filterMap ((fun d =>
      match d with
      | model.Decl.col n t => some (n, t)
      | _ => none) ∘ (fun kv => model.Decl.col kv.1 kv.2)) = l := by
    intro l
    induction l with
    | nil => rfl
    | cons kv r ih => simp_all [Function.comp_def]
  rw [h1, h2, h3]
  simp

/-- C2: for every descriptor with valid identifier names (and a location with
no newline characters), creating the artifact and retrieving it under the
descriptor's name yields a model whose primary-key order, clustering-key
order with each key's sort direction, and plain columns exactly equal the
original descriptor's, with the artifact declaring primary keys first, then
clustering keys, then plain columns; the retrieved model carries the
descriptor's name as its case-sensitive table name. -/
theorem c2_round_trip (fs : model.FS) (mm : model.MetaModel)
    (path : model.FPath) (uid : String)
    (hv : model.validMeta mm = true)
    (hp : '\n' ∉ (model.fullPath path).data)
    (hfree : model.fsRead fs (model.fullPath path) = none) :
    (model.create_data_model fs mm path false true uid).2 = .ok path ∧
    ∃ m, model.retrieve_data_model
        (model.create_data_model fs mm path false true uid).1
        (model.fullPath path) mm.name = .ok m ∧
      m.table_name = mm.name ∧
      m.table_name_case_sensitive = true ∧
      m.decls = model.renderDecls mm ∧
      model.modelPrimaryKeys m = mm.primary_keys ∧
      model.modelClusteringKeys m = mm.clustering_keys ∧
      model.modelColumns m = mm.columns := by
  have hname := (validMeta_parts mm hv).1
  have hcr : model.create_data_model fs mm path false true uid =
      (model.fsWrite fs (model.fullPath path)
        (String.join (model.write_model_lines mm (model.fullPath path))),
       .ok path) := by
    simp [model.create_data_model, model.handle_path, hfree]
  have hread : model.fsRead (model.fsWrite fs (model.fullPath path)
      (String.join (model.write_model_lines mm (model.fullPath path))))
      (model.fullPath path) =
      some (String.join (model.write_model_lines mm (model.fullPath path))) :=
    fsRead_fsWrite_self _ _ _
  have hsplit : (String.join (model.write_model_lines mm
      (model.fullPath path))).data.splitOn '\n' =
      model.logicalLines mm (model.fullPath path) ++ [[]] := by
    rw [content_data_eq mm (model.fullPath path)]
    exact splitOn_joinLines _
      (logicalLines_no_newline mm (model.fullPath path) hv hp)
  have hfind : model.find_class_name ((String.join (model.write_model_lines
      mm (model.fullPath path))).data.splitOn '\n') = some mm.name := by
    rw [hsplit]
    exact find_class_name_logicalLines mm (model.fullPath path) hname
  have hdecls : ((String.join (model.write_model_lines mm
      (model.fullPath path))).data.splitOn '\n').filterMap model.parse_decl =
      model.renderDecls mm := by
    rw [hsplit]
    exact filterMap_logicalLines mm (model.fullPath path) hv
  refine ⟨by rw [hcr], ⟨mm.name, true, model.renderDecls mm⟩, ?_, rfl, rfl,
    rfl, ?_, ?_, ?_⟩
  · rw [hcr]
    simp only [model.retrieve_data_model, hread, hfind, hdecls, if_pos]
  · exact renderDecls_pk mm
  · exact renderDecls_ck mm
  · exact renderDecls_col mm

/-- C2 witness: the round trip at the concrete design-case descriptor on an
empty filesystem. -/
theorem c2_round_trip_witness :
    (model.create_data_model [] model.sampleMeta model.samplePath false true
      "u1").2 = .ok model.samplePath :=
  (c2_round_trip [] model.sampleMeta model.samplePath "u1" (by decide)
    (by decide) rfl).1

end Cassy
